import Mathlib

/-!
Verification of the nigerian-mobile-validator library.

This file is a shallow embedding of the library's core in Lean 4:

* `MobileNumberRange`, `TelcoNumberAllocation`, `MobileNumberingPlan`
  (src/numbering-plan/…) become plain structures; throwing constructors
  become functions into `Option` (`none` = the constructor throws).
* `NigerianMobileNumberValidator.validate`
  (src/number-validation/nigerian-mobile-number-validator.ts) becomes a
  state-passing function `validateFull`; JS strings become `List Char`,
  `null`/`undefined` input becomes `Option (List Char) = none`, the
  rate-limiter collaborator is a boolean parameter (the return value of
  `checkHasExceededRateLimit`), and the events emitted via the
  `EventEmitter` are collected in a list.
* `ValidatorSecurity` (src/security/validator-security.ts) sanitisation
  and fast-reject are translated character-for-character.
-/

/-- Decimal digits of a character list interpreted as a number, mirroring
the behaviour of JS `parseInt` on an all-digit string. -/
def digitsToNat (s : List Char) : Nat :=
  s.foldl (fun n c => n * 10 + (c.toNat - 48)) 0

/-- Fuelled helper for `natToDigits`. -/
def natToDigitsAux : Nat → Nat → List Char
  | 0, _ => []
  | fuel + 1, n =>
    if n < 10 then [Char.ofNat (48 + n)]
    else natToDigitsAux fuel (n / 10) ++ [Char.ofNat (48 + n % 10)]

/-- Decimal rendering of a number, mirroring JS template interpolation
of a non-negative integer (`${n}`). -/
def natToDigits (n : Nat) : List Char :=
  natToDigitsAux (n + 1) n

/-- JS `String.prototype.startsWith` on character lists:
`listStartsWith pre s` is true when `s` begins with `pre`. -/
def listStartsWith (pre s : List Char) : Bool :=
  s.take pre.length == pre

/-- src/numbering-plan/mobile-number-range.ts: an ordered pair of
integers.  The constructor's invariant check lives in
`mkMobileNumberRange`. -/
structure MobileNumberRange where
  lowerBound : Nat
  upperBound : Nat
deriving DecidableEq, Repr

/-- The `MobileNumberRange` constructor: throws (returns `none`) when
`lowerBound >= upperBound`. -/
def mkMobileNumberRange (lowerBound upperBound : Nat) : Option MobileNumberRange :=
  if lowerBound ≥ upperBound then none
  else some ⟨lowerBound, upperBound⟩

/-- `MobileNumberRange.isSubset`: whether `other` lies within `self`. -/
def MobileNumberRange.isSubset (self other : MobileNumberRange) : Bool :=
  other.lowerBound ≥ self.lowerBound && other.upperBound ≤ self.upperBound

/-- `MobileNumberRange.isWithinRange`: inclusive containment of a number. -/
def MobileNumberRange.isWithinRange (self : MobileNumberRange) (usersNumber : Nat) : Bool :=
  usersNumber ≥ self.lowerBound && usersNumber ≤ self.upperBound

/-- src/numbering-plan/telco.ts: the `Telco` enum. -/
inductive Telco where
  | SharedVAS
  | Unassigned
  | Airtel
  | MTN
  | MTel
  | Globacom
  | NineMobile
  | Visafone
  | Smile
  | Mafab
  | InterconnectClearinghouse
  | Openskys
  | Withdrawn
  | Returned
  | Reserved
  | Telewyz
  | Unknown
deriving DecidableEq, Repr

/-- src/numbering-plan/network-access-code.ts: the numeric values of the
`NetworkAccessCode` enum (700-710, 800-818, 900-909, 911-916; there is
no 910). -/
def validNetworkCodes : List Nat :=
  [700, 701, 702, 703, 704, 705, 706, 707, 708, 709, 710,
   800, 801, 802, 803, 804, 805, 806, 807, 808, 809,
   810, 811, 812, 813, 814, 815, 816, 817, 818,
   900, 901, 902, 903, 904, 905, 906, 907, 908, 909,
   911, 912, 913, 914, 915, 916]

/-- `NetworkAccessCodeUtil.isNetworkCodeValid`: membership in the enum. -/
def isNetworkCodeValid (mobileAccessCode : Nat) : Bool :=
  validNetworkCodes.contains mobileAccessCode

/-- `NetworkAccessCodeUtil.getLocalNumberRange`: the top-level range of a
code, `code * 10000000` to `code * 10000000 + 9999999`, built through the
throwing `MobileNumberRange` constructor. -/
def getLocalNumberRange (networkCode : Nat) : Option MobileNumberRange :=
  mkMobileNumberRange (networkCode * 10000000) (networkCode * 10000000 + 9999999)

/-- The value `getLocalNumberRange` produces when its constructor check
passes (which it always does, see `getLocalNumberRange_eq`). -/
def topRange (networkCode : Nat) : MobileNumberRange :=
  ⟨networkCode * 10000000, networkCode * 10000000 + 9999999⟩

/-- src/numbering-plan/telco-number-allocation.ts: a sub-range of one
code's local-number space assigned to one telco. -/
structure TelcoNumberAllocation where
  networkAccessCode : Nat
  telco : Telco
  localNumberRange : MobileNumberRange
deriving DecidableEq, Repr

/-- The `TelcoNumberAllocation` constructor: shifts the subscriber-number
bounds by the code's base offset, builds the local range through the
throwing `MobileNumberRange` constructor, and throws (returns `none`)
when the result is not a subset of the code's top-level range. -/
def mkTelcoNumberAllocation (networkAccessCode : Nat) (telco : Telco)
    (subscriberNumberLowerbound subscriberNumberUpperbound : Nat) :
    Option TelcoNumberAllocation :=
  match getLocalNumberRange networkAccessCode with
  | none => none
  | some networkRange =>
    match mkMobileNumberRange (networkRange.lowerBound + subscriberNumberLowerbound)
        (networkRange.lowerBound + subscriberNumberUpperbound) with
    | none => none
    | some localNumberRange =>
      if networkRange.isSubset localNumberRange then
        some ⟨networkAccessCode, telco, localNumberRange⟩
      else none

/-- src/numbering-plan/mobile-numbering-plan.ts, `loadNetworkCodeData`:
the raw `(telco, subscriberNumberLowerbound, subscriberNumberUpperbound)`
triples of each `case` of the switch, keyed by network code and in
source order. -/
def planData : List (Nat × List (Telco × Nat × Nat)) :=
  [(700, [(Telco.SharedVAS, 0, 9999999)]),
   (701, [(Telco.Airtel, 0, 9999999)]),
   (702,
    [(Telco.Smile, 0, 999999),
     (Telco.Returned, 1000000, 1999999),
     (Telco.InterconnectClearinghouse, 2000000, 2000199),
     (Telco.Withdrawn, 2000200, 2999999),
     (Telco.Openskys, 3000000, 3999999),
     (Telco.Withdrawn, 4000000, 4999999),
     (Telco.Visafone, 5000000, 6999999),
     (Telco.Withdrawn, 7000000, 9999999)]),
   (703, [(Telco.MTN, 0, 9999999)]),
   (704, [(Telco.MTN, 0, 9999999)]),
   (705, [(Telco.Globacom, 0, 9999999)]),
   (706, [(Telco.MTN, 0, 9999999)]),
   (707, [(Telco.MTN, 0, 9999999)]),
   (708, [(Telco.Airtel, 0, 9999999)]),
   (709, [(Telco.Withdrawn, 0, 9999999)]),
   (710, [(Telco.Telewyz, 0, 9999999)]),
   (800, [(Telco.SharedVAS, 0, 9999999)]),
   (801, [(Telco.Mafab, 0, 9999999)]),
   (802, [(Telco.Airtel, 0, 9999999)]),
   (803, [(Telco.MTN, 0, 9999999)]),
   (804, [(Telco.MTel, 0, 9999999)]),
   (805, [(Telco.Globacom, 0, 9999999)]),
   (806, [(Telco.MTN, 0, 9999999)]),
   (807, [(Telco.Globacom, 0, 9999999)]),
   (808, [(Telco.Airtel, 0, 9999999)]),
   (809, [(Telco.NineMobile, 0, 9999999)]),
   (810, [(Telco.MTN, 0, 9999999)]),
   (811, [(Telco.Globacom, 0, 9999999)]),
   (812, [(Telco.Airtel, 0, 9999999)]),
   (813, [(Telco.MTN, 0, 9999999)]),
   (814, [(Telco.MTN, 0, 9999999)]),
   (815, [(Telco.Globacom, 0, 9999999)]),
   (816, [(Telco.MTN, 0, 9999999)]),
   (817, [(Telco.NineMobile, 0, 9999999)]),
   (818, [(Telco.NineMobile, 0, 9999999)]),
   (900, [(Telco.Reserved, 0, 9999999)]),
   (901, [(Telco.Airtel, 0, 9999999)]),
   (902, [(Telco.Airtel, 0, 9999999)]),
   (903, [(Telco.MTN, 0, 9999999)]),
   (904, [(Telco.Airtel, 0, 9999999)]),
   (905, [(Telco.Globacom, 0, 9999999)]),
   (906, [(Telco.MTN, 0, 9999999)]),
   (907, [(Telco.Airtel, 0, 9999999)]),
   (908, [(Telco.NineMobile, 0, 9999999)]),
   (909, [(Telco.NineMobile, 0, 9999999)]),
   (911, [(Telco.Airtel, 0, 9999999)]),
   (912, [(Telco.Airtel, 0, 9999999)]),
   (913, [(Telco.MTN, 0, 9999999)]),
   (914, [(Telco.MTN, 0, 9999999)]),
   (915, [(Telco.Globacom, 0, 9999999)]),
   (916, [(Telco.MTN, 0, 9999999)])]

/-- First-match association lookup, the switch dispatch of
`loadNetworkCodeData`. -/
def assocFind : Nat → List (Nat × List (Telco × Nat × Nat)) → List (Telco × Nat × Nat)
  | _, [] => []
  | networkCode, kv :: rest =>
    if networkCode = kv.1 then kv.2 else assocFind networkCode rest

/-- The raw switch data for one code (empty for codes without a case). -/
def rawAllocationData (networkCode : Nat) : List (Telco × Nat × Nat) :=
  assocFind networkCode planData

/-- Build each allocation of one code's case in source order through the
throwing `TelcoNumberAllocation` constructor; the first throw
propagates. -/
def buildAllocations (networkCode : Nat) :
    List (Telco × Nat × Nat) → Option (List TelcoNumberAllocation)
  | [] => some []
  | d :: rest =>
    match mkTelcoNumberAllocation networkCode d.1 d.2.1 d.2.2 with
    | none => none
    | some a =>
      match buildAllocations networkCode rest with
      | none => none
      | some tail => some (a :: tail)

/-- `loadNetworkCodeData` for one code: `none` means the load would
throw. -/
def loadNetworkCodeDataE (networkCode : Nat) : Option (List TelcoNumberAllocation) :=
  buildAllocations networkCode (rawAllocationData networkCode)

/-- The allocation list the plan holds for a code once loaded (empty for
codes outside the plan). -/
def planAllocations (networkCode : Nat) : List TelcoNumberAllocation :=
  (loadNetworkCodeDataE networkCode).getD []

/-- `MobileNumberingPlan.search`: derive the code by dividing by
10,000,000, reject invalid codes, lazily load the code's allocations and
linearly scan them for the first containing range.  The outer `Option`
tracks the exception of a failing lazy load (`none` = throw), the inner
one the `null` of a failed search. -/
def searchE (localNumber : Nat) : Option (Option TelcoNumberAllocation) :=
  if isNetworkCodeValid (localNumber / 10000000) then
    match loadNetworkCodeDataE (localNumber / 10000000) with
    | none => none
    | some telcoNumberAllocations =>
      some (telcoNumberAllocations.find?
        (fun a => a.localNumberRange.isWithinRange localNumber))
  else some none

/-- src/number-validation/mobile-validation-status.ts: the status enum. -/
inductive MobileValidationStatus where
  | IncorrectNumberOfDigits
  | NotNigerianNumber
  | ContainsNonNumericChars
  | IncorrectNetworkCode
  | InvalidSubscriberNumber
  | UnassignedNetworkCode
  | SharedVASNetworkCode
  | WithdrawnNetworkCode
  | ReservedNetworkCode
  | RateLimitExceeded
  | ReturnedNetworkCode
  | Success
deriving DecidableEq, Repr

/-- The inner `MobileNumber` class of
src/number-validation/nigerian-mobile-number-validator.ts.  `telcoName`
is the optional `_telcoName` field, set only on success. -/
structure MobileNumber where
  msisdn : List Char
  subscriberNumber : List Char
  countryCode : Nat
  networkCode : Nat
  telcoName : Option Telco
deriving DecidableEq, Repr

/-- The `MobileNumber` constructor: splits the sanitized digits by format
(leading `0`, leading `234`, assumed leading `+`) and rebuilds the
canonical msisdn as `+` country code, network code, subscriber number. -/
def mkMobileNumber (msisdn : List Char) : MobileNumber :=
  if listStartsWith ['0'] msisdn then
    let networkCode := digitsToNat ((msisdn.drop 1).take 3)
    let subscriberNumber := msisdn.drop 4
    { msisdn := '+' :: (natToDigits 234 ++ natToDigits networkCode ++ subscriberNumber),
      subscriberNumber, countryCode := 234, networkCode, telcoName := none }
  else if listStartsWith ['2', '3', '4'] msisdn then
    let countryCode := digitsToNat (msisdn.take 3)
    let networkCode := digitsToNat ((msisdn.drop 3).take 3)
    let subscriberNumber := msisdn.drop 6
    { msisdn := '+' :: (natToDigits countryCode ++ natToDigits networkCode ++ subscriberNumber),
      subscriberNumber, countryCode, networkCode, telcoName := none }
  else
    let countryCode := digitsToNat ((msisdn.drop 1).take 3)
    let networkCode := digitsToNat ((msisdn.drop 4).take 3)
    let subscriberNumber := msisdn.drop 7
    { msisdn := '+' :: (natToDigits countryCode ++ natToDigits networkCode ++ subscriberNumber),
      subscriberNumber, countryCode, networkCode, telcoName := none }

/-- The `localNumber` getter: leading `0`, network code, subscriber. -/
def MobileNumber.localNumber (m : MobileNumber) : List Char :=
  '0' :: (natToDigits m.networkCode ++ m.subscriberNumber)

/-- src/number-validation/mobile-number-validation-result.ts: the outcome
record handed to callers and observers. -/
structure MobileNumberValidationResult where
  userProvidedDigits : List Char
  validationStatus : MobileValidationStatus
  validationSucceeded : Bool
  mobileNumber : Option MobileNumber
  telcoNumberAllocation : Option TelcoNumberAllocation
deriving DecidableEq, Repr

/-- The `MobileNumberValidationResult` constructor: throws (returns
`none`) when validation claims success without a mobile number. -/
def mkMobileNumberValidationResult (userProvidedDigits : List Char)
    (validationStatus : MobileValidationStatus) (validationSucceeded : Bool)
    (mobileNumber : Option MobileNumber)
    (telcoNumberAllocation : Option TelcoNumberAllocation) :
    Option MobileNumberValidationResult :=
  if validationSucceeded && mobileNumber.isNone then none
  else some ⟨userProvidedDigits, validationStatus, validationSucceeded,
    mobileNumber, telcoNumberAllocation⟩

/-- src/number-validation/validation-triggering-flags.ts. -/
structure ValidationTriggeringFlags where
  previousUserInput : List Char
  hasPreviouslyErrored : Bool
  validated : Bool
deriving DecidableEq, Repr

/-- The flags of a freshly constructed validator. -/
def freshFlags : ValidationTriggeringFlags := ⟨[], false, false⟩

/-- The private `TypingDirection` enum of the validator. -/
inductive TypingDirection where
  | Forward
  | Backward
deriving DecidableEq, Repr

/-- `areThereEnoughDigitsToValidate`: decides whether a lookup should be
attempted and threads the mutated flags (the stored previous input, and
the reset of both flags on empty input). -/
def areThereEnoughDigitsToValidate (flags : ValidationTriggeringFlags)
    (currentUserInput : List Char) : Bool × ValidationTriggeringFlags :=
  let usersTypingDirection :=
    if flags.previousUserInput.length ≤ currentUserInput.length then
      TypingDirection.Forward
    else TypingDirection.Backward
  let flags := { flags with previousUserInput := currentUserInput }
  if currentUserInput.length = 0 then
    (false, { flags with hasPreviouslyErrored := false, validated := false })
  else if flags.hasPreviouslyErrored || flags.validated then
    if listStartsWith ['0'] currentUserInput then
      if usersTypingDirection = TypingDirection.Forward then
        (if 11 ≤ currentUserInput.length then (true, flags) else (false, flags))
      else
        (if currentUserInput.length = 10 ∨ currentUserInput.length = 11 then
          (true, flags) else (false, flags))
    else if listStartsWith ['2', '3', '4'] currentUserInput then
      if usersTypingDirection = TypingDirection.Forward then
        (if 13 ≤ currentUserInput.length then (true, flags) else (false, flags))
      else
        (if currentUserInput.length = 12 ∨ currentUserInput.length = 13 then
          (true, flags) else (false, flags))
    else (false, flags)
  else if listStartsWith ['0'] currentUserInput ∧ 11 ≤ currentUserInput.length then
    (true, flags)
  else if listStartsWith ['2', '3', '4'] currentUserInput ∧ 13 ≤ currentUserInput.length then
    (true, flags)
  else (false, flags)

/-- `updateValidationTriggeringFlags`: a failed validation latches
`hasPreviouslyErrored`; `validated` always mirrors the last outcome. -/
def updateValidationTriggeringFlags (flags : ValidationTriggeringFlags)
    (validationSucceeded : Bool) : ValidationTriggeringFlags :=
  let flags :=
    if validationSucceeded = false then { flags with hasPreviouslyErrored := true }
    else flags
  { flags with validated := validationSucceeded }

/-- src/security/validator-security.ts `MAX_INPUT_LENGTH`. -/
def MAX_INPUT_LENGTH : Nat := 50

/-- The character class of the JS regex `\s` (whitespace). -/
def jsWhitespace (c : Char) : Bool :=
  let n := c.toNat
  n = 0x20 || n = 0x09 || n = 0x0A || n = 0x0D || n = 0x0B || n = 0x0C ||
  n = 0xA0 || n = 0x1680 || (0x2000 ≤ n && n ≤ 0x200A) ||
  n = 0x2028 || n = 0x2029 || n = 0x202F || n = 0x205F || n = 0x3000 || n = 0xFEFF

/-- The character class of the JS regex `[\x00-\x1F\x7F-\x9F]`. -/
def isControlChar (c : Char) : Bool :=
  c.toNat ≤ 0x1F || (0x7F ≤ c.toNat && c.toNat ≤ 0x9F)

/-- `ValidatorSecurity.fastReject`: reject empty input, input longer
than `MAX_INPUT_LENGTH`, and input with any character outside
`[oO\d\s\(\)\+\-]`. -/
def fastReject (input : List Char) : Bool :=
  if input.length = 0 then true
  else if input.length > MAX_INPUT_LENGTH then true
  else input.any (fun c =>
    !(c = 'o' || c = 'O' || c.isDigit || jsWhitespace c ||
      c = '(' || c = ')' || c = '+' || c = '-'))

/-- `ValidatorSecurity.stripUnsafeInputs`: empty for null input, truncate
to `MAX_INPUT_LENGTH`, drop control characters, drop the formatting
characters `+`, whitespace, `(`, `)`, `-`, and turn `o`/`O` into `0`. -/
def stripUnsafeInputs (userProvidedDigits : List Char) : List Char :=
  if userProvidedDigits.isEmpty then []
  else
    let truncated :=
      if userProvidedDigits.length > MAX_INPUT_LENGTH then
        userProvidedDigits.take MAX_INPUT_LENGTH
      else userProvidedDigits
    let noControl := truncated.filter (fun c => !(isControlChar c))
    let noFormatting := noControl.filter
      (fun c => !(c = '+' || jsWhitespace c || c = '(' || c = ')' || c = '-'))
    noFormatting.map (fun c => if c = 'o' || c = 'O' then '0' else c)

/-- src/utils/general-utils.ts `GeneralUtils.isNumeric`: the regex
`^[0-9]+$`. -/
def isNumeric (value : List Char) : Bool :=
  !value.isEmpty && value.all Char.isDigit

/-- The validator's `isForeignNumber` fast pre-check: after a `0` the
next digit must be 7, 8 or 9; after `234` the fourth digit; after `+234`
the fifth.  Too-short prefixed input counts as foreign; anything else
is foreign. -/
def isForeignNumber (sanitizedUserInput : List Char) : Bool :=
  if sanitizedUserInput.isEmpty then false
  else if listStartsWith ['0'] sanitizedUserInput then
    if sanitizedUserInput.length < 2 then true
    else !(['7', '8', '9'].contains (sanitizedUserInput.getD 1 ' '))
  else if listStartsWith ['2', '3', '4'] sanitizedUserInput then
    if sanitizedUserInput.length < 4 then true
    else !(['7', '8', '9'].contains (sanitizedUserInput.getD 3 ' '))
  else if listStartsWith ['+', '2', '3', '4'] sanitizedUserInput then
    if sanitizedUserInput.length < 5 then true
    else !(['7', '8', '9'].contains (sanitizedUserInput.getD 4 ' '))
  else true

/-- The expected-length classification inside `validate` (local 11,
international 13, `+`-international 14, otherwise not Nigerian). -/
def expectedCharLengthOf (sanitizedUserInput : List Char) : Option Nat :=
  if listStartsWith ['0'] sanitizedUserInput then some 11
  else if listStartsWith ['2', '3', '4'] sanitizedUserInput then some 13
  else if listStartsWith ['+', '2', '3', '4'] sanitizedUserInput then some 14
  else none

/-- Everything one call to `validate` produces: the returned result, the
validator's flags afterwards, and the results emitted to observers (the
emitter delivers each synchronously to every registered listener). -/
structure VOut where
  result : MobileNumberValidationResult
  flags : ValidationTriggeringFlags
  emitted : List MobileNumberValidationResult
deriving DecidableEq, Repr

/-- `publishValidationResult`: update the triggering flags, build the
result through the throwing constructor, emit it. -/
def publishValidationResult (flags : ValidationTriggeringFlags)
    (userProvidedDigits : List Char) (mobileValidationStatus : MobileValidationStatus)
    (validationSucceeded : Bool) (mobileNumber : Option MobileNumber)
    (telcoNumberAllocation : Option TelcoNumberAllocation) : Option VOut :=
  let flags := updateValidationTriggeringFlags flags validationSucceeded
  (mkMobileNumberValidationResult userProvidedDigits mobileValidationStatus
      validationSucceeded mobileNumber telcoNumberAllocation).map
    (fun r => ⟨r, flags, [r]⟩)

/-- The guard of the first branch of `validate`:
`!userProvidedDigits || ValidatorSecurity.fastReject(userProvidedDigits)`
(`null`, `undefined` and the empty string are falsy). -/
def takesFastRejectBranch (userProvidedDigits : Option (List Char)) : Bool :=
  (match userProvidedDigits with
    | none => true
    | some s => s.isEmpty) ||
  fastReject (userProvidedDigits.getD [])

/-- `NigerianMobileNumberValidator.validate`, in source order.  `none`
input models `null`/`undefined`; `rateLimitOk` is the value of
`checkHasExceededRateLimit` (`true` when no limiter is configured or the
limit is not exceeded); the result is `none` exactly when the original
would throw. -/
def validateFull (flags : ValidationTriggeringFlags) (rateLimitOk : Bool)
    (userProvidedDigits : Option (List Char)) : Option VOut :=
  let rawOrEmpty := userProvidedDigits.getD []
  if takesFastRejectBranch userProvidedDigits then
    publishValidationResult flags rawOrEmpty
      MobileValidationStatus.ContainsNonNumericChars false none none
  else if !rateLimitOk then
    (mkMobileNumberValidationResult rawOrEmpty
        MobileValidationStatus.RateLimitExceeded false none none).map
      (fun r => ⟨r, flags, []⟩)
  else if rawOrEmpty.isEmpty then
    publishValidationResult flags []
      MobileValidationStatus.IncorrectNumberOfDigits false none none
  else
    let sanitizedUserInput := stripUnsafeInputs rawOrEmpty
    if !isNumeric sanitizedUserInput then
      publishValidationResult flags rawOrEmpty
        MobileValidationStatus.ContainsNonNumericChars false none none
    else if isForeignNumber sanitizedUserInput then
      publishValidationResult flags rawOrEmpty
        MobileValidationStatus.NotNigerianNumber false none none
    else
      let p := areThereEnoughDigitsToValidate flags sanitizedUserInput
      if !p.1 then
        publishValidationResult p.2 rawOrEmpty
          MobileValidationStatus.IncorrectNumberOfDigits false none none
      else
        match expectedCharLengthOf sanitizedUserInput with
        | none =>
          publishValidationResult p.2 rawOrEmpty
            MobileValidationStatus.NotNigerianNumber false none none
        | some expectedCharLength =>
          if sanitizedUserInput.length ≠ expectedCharLength then
            publishValidationResult p.2 rawOrEmpty
              MobileValidationStatus.IncorrectNumberOfDigits false none none
          else
            let mobileNumber := mkMobileNumber sanitizedUserInput
            if !isNetworkCodeValid mobileNumber.networkCode then
              publishValidationResult p.2 rawOrEmpty
                MobileValidationStatus.IncorrectNetworkCode false (some mobileNumber) none
            else
              match searchE (digitsToNat mobileNumber.localNumber) with
              | none => none
              | some none =>
                publishValidationResult p.2 rawOrEmpty
                  MobileValidationStatus.InvalidSubscriberNumber false
                  (some mobileNumber) none
              | some (some telcoNumberAllocation) =>
                if telcoNumberAllocation.telco = Telco.Unassigned then
                  publishValidationResult p.2 rawOrEmpty
                    MobileValidationStatus.UnassignedNetworkCode false
                    (some mobileNumber) (some telcoNumberAllocation)
                else if telcoNumberAllocation.telco = Telco.SharedVAS then
                  publishValidationResult p.2 rawOrEmpty
                    MobileValidationStatus.SharedVASNetworkCode false
                    (some mobileNumber) (some telcoNumberAllocation)
                else if telcoNumberAllocation.telco = Telco.Withdrawn then
                  publishValidationResult p.2 rawOrEmpty
                    MobileValidationStatus.WithdrawnNetworkCode false
                    (some mobileNumber) (some telcoNumberAllocation)
                else if telcoNumberAllocation.telco = Telco.Reserved then
                  publishValidationResult p.2 rawOrEmpty
                    MobileValidationStatus.ReservedNetworkCode false
                    (some mobileNumber) (some telcoNumberAllocation)
                else if telcoNumberAllocation.telco = Telco.Returned then
                  publishValidationResult p.2 rawOrEmpty
                    MobileValidationStatus.ReturnedNetworkCode false
                    (some mobileNumber) (some telcoNumberAllocation)
                else
                  publishValidationResult p.2 rawOrEmpty
                    MobileValidationStatus.Success true
                    (some { mobileNumber with telcoName := some telcoNumberAllocation.telco })
                    (some telcoNumberAllocation)

/-- Placeholder value used to project out of `validateFull`; never
reached, see the totality theorem for C8. -/
def theDefaultVOut : VOut :=
  ⟨⟨[], MobileValidationStatus.IncorrectNumberOfDigits, false, none, none⟩,
   freshFlags, []⟩

/-- One call to `validate`, projected to its observable output. -/
def validateRun (flags : ValidationTriggeringFlags) (rateLimitOk : Bool)
    (userProvidedDigits : Option (List Char)) : VOut :=
  (validateFull flags rateLimitOk userProvidedDigits).getD theDefaultVOut

/-- `getLocalNumberRange` never throws: the constructor check
`lower >= upper` always passes for a top-level code range. -/
theorem getLocalNumberRange_eq (networkCode : Nat) :
    getLocalNumberRange networkCode = some (topRange networkCode) := by
  unfold getLocalNumberRange mkMobileNumberRange topRange
  rw [if_neg]
  omega

/-- Every element produced by `assocFind` comes from one of the
association list's entries. -/
theorem assocFind_mem (networkCode : Nat) :
    ∀ (l : List (Nat × List (Telco × Nat × Nat))) (d : Telco × Nat × Nat),
      d ∈ assocFind networkCode l → ∃ kv, kv ∈ l ∧ d ∈ kv.2 := by
  intro l
  induction l with
  | nil => intro d hd; cases hd
  | cons kv rest ih =>
    intro d hd
    rw [assocFind] at hd
    split at hd
    · exact ⟨kv, List.mem_cons_self kv rest, hd⟩
    · obtain ⟨kv2, h1, h2⟩ := ih d hd
      exact ⟨kv2, List.mem_cons_of_mem kv h1, h2⟩

/-- The `TelcoNumberAllocation` constructor succeeds whenever the
subscriber-number bounds are ordered and fit the 7-digit space. -/
theorem mkTelcoNumberAllocation_isSome (networkCode : Nat) (telco : Telco)
    (lo hi : Nat) (h1 : lo < hi) (h2 : hi ≤ 9999999) :
    (mkTelcoNumberAllocation networkCode telco lo hi).isSome = true := by
  rw [mkTelcoNumberAllocation, getLocalNumberRange_eq]
  simp only [mkMobileNumberRange, topRange, MobileNumberRange.isSubset]
  rw [if_neg (by omega)]
  simp only
  rw [if_pos (by simp only [decide_eq_true_eq, Bool.and_eq_true, ge_iff_le]; omega)]
  rfl

/-- Building a list of allocations succeeds when each single
construction succeeds. -/
theorem buildAllocations_isSome (networkCode : Nat) :
    ∀ l : List (Telco × Nat × Nat),
      (∀ d ∈ l, (mkTelcoNumberAllocation networkCode d.1 d.2.1 d.2.2).isSome = true) →
      (buildAllocations networkCode l).isSome = true := by
  intro l
  induction l with
  | nil => intro _; rfl
  | cons d rest ih =>
    intro h
    rw [buildAllocations]
    cases hm : mkTelcoNumberAllocation networkCode d.1 d.2.1 d.2.2 with
    | none =>
      have := h d (List.mem_cons_self d rest)
      rw [hm] at this
      cases this
    | some a =>
      cases hb : buildAllocations networkCode rest with
      | none =>
        have := ih (fun d2 hd2 => h d2 (List.mem_cons_of_mem d hd2))
        rw [hb] at this
        cases this
      | some tail => rfl

/-- Loading the static plan data never throws, for any code: every
entry of the plan table has ordered bounds inside the 7-digit space, and
unknown codes load nothing. -/
theorem loadNetworkCodeDataE_isSome (networkCode : Nat) :
    (loadNetworkCodeDataE networkCode).isSome = true := by
  apply buildAllocations_isSome
  intro d hd
  obtain ⟨kv, hkv, hdv⟩ := assocFind_mem networkCode planData d hd
  have hall : ∀ kv2 ∈ planData, ∀ d2 ∈ kv2.2,
      d2.2.1 < d2.2.2 ∧ d2.2.2 ≤ 9999999 := by decide
  obtain ⟨hb1, hb2⟩ := hall kv hkv d hdv
  exact mkTelcoNumberAllocation_isSome networkCode d.1 d.2.1 d.2.2 hb1 hb2

/-- `search` never throws. -/
theorem searchE_isSome (localNumber : Nat) :
    (searchE localNumber).isSome = true := by
  rw [searchE]
  split
  · cases h : loadNetworkCodeDataE (localNumber / 10000000) with
    | none =>
      have := loadNetworkCodeDataE_isSome (localNumber / 10000000)
      rw [h] at this
      cases this
    | some allocs => simp
  · simp

/-- Publishing a failed validation always succeeds and emits exactly the
returned result. -/
theorem publishValidationResult_false (flags : ValidationTriggeringFlags)
    (digits : List Char) (st : MobileValidationStatus)
    (mn : Option MobileNumber) (alloc : Option TelcoNumberAllocation) :
    publishValidationResult flags digits st false mn alloc =
      some ⟨⟨digits, st, false, mn, alloc⟩,
        updateValidationTriggeringFlags flags false,
        [⟨digits, st, false, mn, alloc⟩]⟩ := by
  unfold publishValidationResult mkMobileNumberValidationResult
  simp

/-- Publishing with a mobile number present always succeeds and emits
exactly the returned result. -/
theorem publishValidationResult_some (flags : ValidationTriggeringFlags)
    (digits : List Char) (st : MobileValidationStatus) (b : Bool)
    (m : MobileNumber) (alloc : Option TelcoNumberAllocation) :
    publishValidationResult flags digits st b (some m) alloc =
      some ⟨⟨digits, st, b, some m, alloc⟩,
        updateValidationTriggeringFlags flags b,
        [⟨digits, st, b, some m, alloc⟩]⟩ := by
  unfold publishValidationResult mkMobileNumberValidationResult
  simp

/-- C1: `validate("08031234567")` on a fresh validator returns `Success`
with operator MTN (the sole code-803 assignee of the plan), subscriber
digits `1234567` and an msisdn starting with `+234`; and
`validate("+2348031234567")` on a fresh validator yields the same
status, operator, subscriber digits and msisdn. -/
theorem validate_scenario_a_and_b :
    (let ra := (validateRun freshFlags true
        (some ['0', '8', '0', '3', '1', '2', '3', '4', '5', '6', '7'])).result
     let rb := (validateRun freshFlags true
        (some ['+', '2', '3', '4', '8', '0', '3', '1', '2', '3', '4', '5', '6', '7'])).result
     ra.validationStatus = MobileValidationStatus.Success ∧
     ra.validationSucceeded = true ∧
     (planAllocations 803).map (fun a => a.telco) = [Telco.MTN] ∧
     ra.telcoNumberAllocation.map (fun a => a.telco) = some Telco.MTN ∧
     ra.mobileNumber.map (fun m => m.telcoName) = some (some Telco.MTN) ∧
     ra.mobileNumber.map (fun m => m.subscriberNumber) =
       some ['1', '2', '3', '4', '5', '6', '7'] ∧
     ra.mobileNumber.map (fun m => listStartsWith ['+', '2', '3', '4'] m.msisdn) =
       some true ∧
     rb.validationStatus = ra.validationStatus ∧
     rb.mobileNumber.map (fun m => m.telcoName) =
       ra.mobileNumber.map (fun m => m.telcoName) ∧
     rb.mobileNumber.map (fun m => m.subscriberNumber) =
       ra.mobileNumber.map (fun m => m.subscriberNumber) ∧
     rb.mobileNumber.map (fun m => m.msisdn) =
       ra.mobileNumber.map (fun m => m.msisdn)) := by decide

/-- C2 counterexample: split code 702 has eight sub-ranges in the plan,
not seven. -/
theorem split_code_702_has_eight_subranges :
    (planAllocations 702).length = 8 ∧ (8 : Nat) ≠ 7 := by decide

/-- C2 (amended): for every allocation of every valid code, searching the
plan at the allocation's lower bound, upper bound and midpoint returns
that same allocation (all eight sub-ranges of split code 702 included). -/
theorem search_round_trip :
    ∀ code ∈ validNetworkCodes, ∀ a ∈ planAllocations code,
      searchE a.localNumberRange.lowerBound = some (some a) ∧
      searchE a.localNumberRange.upperBound = some (some a) ∧
      searchE ((a.localNumberRange.lowerBound + a.localNumberRange.upperBound) / 2) =
        some (some a) := by decide

/-- Witness for C2: the round trip at the Returned sub-range of 702. -/
theorem search_round_trip_witness :
    searchE (7021000000 : Nat) =
      some (some ⟨702, Telco.Returned, ⟨7021000000, 7021999999⟩⟩) ∧
    searchE (7021999999 : Nat) =
      some (some ⟨702, Telco.Returned, ⟨7021000000, 7021999999⟩⟩) ∧
    searchE ((7021000000 + 7021999999) / 2 : Nat) =
      some (some ⟨702, Telco.Returned, ⟨7021000000, 7021999999⟩⟩) :=
  search_round_trip 702 (by decide)
    ⟨702, Telco.Returned, ⟨7021000000, 7021999999⟩⟩ (by decide)

/-- C3: every valid code's top-level range spans exactly 10,000,000
integers, every allocation the plan constructs for it is a subset of
that range, and the `TelcoNumberAllocation` constructor only ever
produces allocations within the top-level range (a violation throws,
i.e. yields `none`). -/
theorem top_range_span_and_allocation_subsets :
    (∀ code ∈ validNetworkCodes,
       getLocalNumberRange code = some (topRange code) ∧
       (topRange code).upperBound + 1 - (topRange code).lowerBound = 10000000 ∧
       ∀ a ∈ planAllocations code,
         (topRange code).isSubset a.localNumberRange = true) ∧
    (∀ code t lo hi a, mkTelcoNumberAllocation code t lo hi = some a →
       (topRange code).isSubset a.localNumberRange = true) := by
  constructor
  · decide
  · intro code t lo hi a h
    rw [mkTelcoNumberAllocation, getLocalNumberRange_eq] at h
    simp only at h
    cases hr : mkMobileNumberRange ((topRange code).lowerBound + lo)
        ((topRange code).lowerBound + hi) with
    | none => rw [hr] at h; cases h
    | some r =>
      rw [hr] at h
      simp only at h
      split at h
      · rename_i hsub
        cases h
        exact hsub
      · cases h

/-- Witness for C3: the concrete facts at codes 803 and 702. -/
theorem top_range_span_witness :
    (getLocalNumberRange 803 = some (topRange 803) ∧
     (topRange 803).upperBound + 1 - (topRange 803).lowerBound = 10000000 ∧
     ∀ a ∈ planAllocations 803,
       (topRange 803).isSubset a.localNumberRange = true) ∧
    (topRange 702).isSubset
      (⟨702, Telco.Returned, ⟨7021000000, 7021999999⟩⟩ :
        TelcoNumberAllocation).localNumberRange = true :=
  ⟨top_range_span_and_allocation_subsets.1 803 (by decide),
   top_range_span_and_allocation_subsets.2 702 Telco.Returned 1000000 1999999
     ⟨702, Telco.Returned, ⟨7021000000, 7021999999⟩⟩ (by decide)⟩

/-- C5 counterexample: the first keystroke `"0"` yields
`NotNigerianNumber` (a lone `0` has no second digit, so
`isForeignNumber` reports it foreign), not `IncorrectNumberOfDigits`. -/
theorem single_zero_yields_not_nigerian :
    (validateRun freshFlags true (some ['0'])).result.validationStatus =
      MobileValidationStatus.NotNigerianNumber ∧
    MobileValidationStatus.NotNigerianNumber ≠
      MobileValidationStatus.IncorrectNumberOfDigits := by decide

/-- C5 (amended): feeding a fresh validator `"0"`, `"08"`, `"080"` never
attempts full validation (no parsed number is ever produced and nothing
succeeds); the first call returns `NotNigerianNumber` via the foreign
fast check, the second and third return `IncorrectNumberOfDigits`. -/
theorem keystroke_sequence_statuses :
    (let out1 := validateRun freshFlags true (some ['0'])
     let out2 := validateRun out1.flags true (some ['0', '8'])
     let out3 := validateRun out2.flags true (some ['0', '8', '0'])
     out1.result.validationStatus = MobileValidationStatus.NotNigerianNumber ∧
     out2.result.validationStatus = MobileValidationStatus.IncorrectNumberOfDigits ∧
     out3.result.validationStatus = MobileValidationStatus.IncorrectNumberOfDigits ∧
     out1.result.validationSucceeded = false ∧
     out2.result.validationSucceeded = false ∧
     out3.result.validationSucceeded = false ∧
     out1.result.mobileNumber = none ∧
     out2.result.mobileNumber = none ∧
     out3.result.mobileNumber = none) := by decide

/-- C6: `validate("")` on a fresh validator returns
`ContainsNonNumericChars` with `succeeded = false` (the empty string is
falsy and takes the fast-reject branch). -/
theorem validate_empty_string :
    (validateRun freshFlags true (some [])).result.validationStatus =
      MobileValidationStatus.ContainsNonNumericChars ∧
    (validateRun freshFlags true (some [])).result.validationSucceeded = false := by
  decide

/-- C10: `validate(null)` and `validate(undefined)` (both embedded as
`none`) return `ContainsNonNumericChars`, `succeeded = false`, and an
empty `userProvidedDigits`. -/
theorem validate_null_or_undefined :
    (validateRun freshFlags true none).result.validationStatus =
      MobileValidationStatus.ContainsNonNumericChars ∧
    (validateRun freshFlags true none).result.validationSucceeded = false ∧
    (validateRun freshFlags true none).result.userProvidedDigits = [] := by decide

/-- Decomposition of the fast-reject guard for a non-null input. -/
theorem takesFastRejectBranch_false_iff (input : List Char) :
    takesFastRejectBranch (some input) = false ↔
      input.isEmpty = false ∧ fastReject input = false := by
  simp [takesFastRejectBranch]

/-- A failed publication satisfies the non-rate-limited branch contract:
it is defined, emits its result, and updates the flags. -/
theorem publish_false_out_spec (flags : ValidationTriggeringFlags)
    (digits : List Char) (st : MobileValidationStatus)
    (mn : Option MobileNumber) (alloc : Option TelcoNumberAllocation)
    (c : Prop) [Decidable c] (hc : ¬c) (P : VOut → Prop) :
    (publishValidationResult flags digits st false mn alloc).isSome = true ∧
    ∀ out, publishValidationResult flags digits st false mn alloc = some out →
      if c then P out
      else
        out.emitted = [out.result] ∧
        out.flags.validated = out.result.validationSucceeded ∧
        (out.result.validationSucceeded = false →
          out.flags.hasPreviouslyErrored = true) := by
  rw [publishValidationResult_false]
  refine ⟨rfl, ?_⟩
  intro out h
  rw [Option.some.injEq] at h
  subst h
  rw [if_neg hc]
  simp [updateValidationTriggeringFlags]

/-- A publication carrying a mobile number satisfies the
non-rate-limited branch contract for any outcome flag. -/
theorem publish_some_out_spec (flags : ValidationTriggeringFlags)
    (digits : List Char) (st : MobileValidationStatus) (b : Bool)
    (m : MobileNumber) (alloc : Option TelcoNumberAllocation)
    (c : Prop) [Decidable c] (hc : ¬c) (P : VOut → Prop) :
    (publishValidationResult flags digits st b (some m) alloc).isSome = true ∧
    ∀ out, publishValidationResult flags digits st b (some m) alloc = some out →
      if c then P out
      else
        out.emitted = [out.result] ∧
        out.flags.validated = out.result.validationSucceeded ∧
        (out.result.validationSucceeded = false →
          out.flags.hasPreviouslyErrored = true) := by
  rw [publishValidationResult_some]
  refine ⟨rfl, ?_⟩
  intro out h
  rw [Option.some.injEq] at h
  subst h
  rw [if_neg hc]
  cases b <;> simp [updateValidationTriggeringFlags]

/-- Branch shape of `validate`: it never throws, and the produced output
either comes from the rate-limit branch (nothing emitted, flags kept) or
went through `publishValidationResult` (result emitted, flags updated). -/
theorem validateFull_shape (flags : ValidationTriggeringFlags) (rateLimitOk : Bool)
    (input : Option (List Char)) :
    (validateFull flags rateLimitOk input).isSome = true ∧
    ∀ out, validateFull flags rateLimitOk input = some out →
      if takesFastRejectBranch input = false ∧ rateLimitOk = false then
        out.emitted = [] ∧ out.flags = flags ∧
        out.result.validationStatus = MobileValidationStatus.RateLimitExceeded
      else
        out.emitted = [out.result] ∧
        out.flags.validated = out.result.validationSucceeded ∧
        (out.result.validationSucceeded = false →
          out.flags.hasPreviouslyErrored = true) := by
  by_cases h1 : takesFastRejectBranch input = true
  · simp only [validateFull]
    rw [if_pos h1]
    exact publish_false_out_spec _ _ _ _ _ _ (by simp [h1]) _
  · have h1f : takesFastRejectBranch input = false := by simpa using h1
    cases rateLimitOk with
    | false =>
      simp only [validateFull]
      rw [if_neg (by simp [h1f]), if_pos (by decide)]
      simp only [mkMobileNumberValidationResult, Bool.false_and,
        Bool.false_eq_true, if_false, Option.map_some']
      refine ⟨rfl, ?_⟩
      intro out h
      rw [Option.some.injEq] at h
      subst h
      rw [if_pos ⟨h1f, trivial⟩]
      exact ⟨rfl, rfl, rfl⟩
    | true =>
      simp only [validateFull]
      rw [if_neg (by simp [h1f]), if_neg (by decide)]
      by_cases h3 : (input.getD []).isEmpty = true
      · rw [if_pos h3]
        exact publish_false_out_spec _ _ _ _ _ _ (by simp) _
      · rw [if_neg h3]
        by_cases h4 : (!isNumeric (stripUnsafeInputs (input.getD []))) = true
        · rw [if_pos h4]
          exact publish_false_out_spec _ _ _ _ _ _ (by simp) _
        · rw [if_neg h4]
          by_cases h5 : isForeignNumber (stripUnsafeInputs (input.getD [])) = true
          · rw [if_pos h5]
            exact publish_false_out_spec _ _ _ _ _ _ (by simp) _
          · rw [if_neg h5]
            by_cases h6 : (!(areThereEnoughDigitsToValidate flags
                (stripUnsafeInputs (input.getD []))).1) = true
            · rw [if_pos h6]
              exact publish_false_out_spec _ _ _ _ _ _ (by simp) _
            · rw [if_neg h6]
              cases hE : expectedCharLengthOf (stripUnsafeInputs (input.getD [])) with
              | none =>
                dsimp only
                exact publish_false_out_spec _ _ _ _ _ _ (by simp) _
              | some len =>
                dsimp only
                by_cases h7 : (stripUnsafeInputs (input.getD [])).length ≠ len
                · rw [if_pos h7]
                  exact publish_false_out_spec _ _ _ _ _ _ (by simp) _
                · rw [if_neg h7]
                  by_cases h8 : (!isNetworkCodeValid
                      (mkMobileNumber (stripUnsafeInputs (input.getD []))).networkCode) = true
                  · rw [if_pos h8]
                    exact publish_false_out_spec _ _ _ _ _ _ (by simp) _
                  · rw [if_neg h8]
                    rcases hsearch : searchE (digitsToNat
                        (mkMobileNumber (stripUnsafeInputs (input.getD []))).localNumber)
                      with - | (- | a)
                    · exfalso
                      have hs := searchE_isSome (digitsToNat
                        (mkMobileNumber (stripUnsafeInputs (input.getD []))).localNumber)
                      rw [hsearch] at hs
                      simp at hs
                    · dsimp only
                      exact publish_false_out_spec _ _ _ _ _ _ (by simp) _
                    · dsimp only
                      by_cases t1 : a.telco = Telco.Unassigned
                      · rw [if_pos t1]
                        exact publish_false_out_spec _ _ _ _ _ _ (by simp) _
                      · rw [if_neg t1]
                        by_cases t2 : a.telco = Telco.SharedVAS
                        · rw [if_pos t2]
                          exact publish_false_out_spec _ _ _ _ _ _ (by simp) _
                        · rw [if_neg t2]
                          by_cases t3 : a.telco = Telco.Withdrawn
                          · rw [if_pos t3]
                            exact publish_false_out_spec _ _ _ _ _ _ (by simp) _
                          · rw [if_neg t3]
                            by_cases t4 : a.telco = Telco.Reserved
                            · rw [if_pos t4]
                              exact publish_false_out_spec _ _ _ _ _ _ (by simp) _
                            · rw [if_neg t4]
                              by_cases t5 : a.telco = Telco.Returned
                              · rw [if_pos t5]
                                exact publish_false_out_spec _ _ _ _ _ _ (by simp) _
                              · rw [if_neg t5]
                                exact publish_some_out_spec _ _ _ _ _ _ _ (by simp) _

/-- C4 counterexample: a rate-limited call (`rateLimitOk = false`, input
not fast-rejected) emits nothing to observers and leaves the triggering
flags untouched, returning `RateLimitExceeded` directly. -/
theorem rate_limited_call_skips_flags_and_emit :
    (validateRun freshFlags false
      (some ['0', '8', '0', '3', '1', '2', '3', '4', '5', '6', '7'])).emitted = [] ∧
    (validateRun freshFlags false
      (some ['0', '8', '0', '3', '1', '2', '3', '4', '5', '6', '7'])).flags = freshFlags ∧
    (validateRun freshFlags false
      (some ['0', '8', '0', '3', '1', '2', '3', '4', '5', '6', '7'])).result.validationStatus =
      MobileValidationStatus.RateLimitExceeded := by decide

/-- C4 (amended): on every call except a rate-limit rejection, the
triggering flags are updated (`validated` mirrors the outcome, a failure
latches `hasPreviouslyErrored`) and the returned outcome is emitted
synchronously to the observers; a rate-limit rejection returns the
outcome directly, emitting nothing and leaving the flags unchanged. -/
theorem publish_and_emit_except_rate_limit :
    ∀ (flags : ValidationTriggeringFlags) (rateLimitOk : Bool)
      (input : Option (List Char)),
      (takesFastRejectBranch input = false → rateLimitOk = false →
        (validateRun flags rateLimitOk input).emitted = [] ∧
        (validateRun flags rateLimitOk input).flags = flags) ∧
      (takesFastRejectBranch input = true ∨ rateLimitOk = true →
        (validateRun flags rateLimitOk input).emitted =
          [(validateRun flags rateLimitOk input).result] ∧
        (validateRun flags rateLimitOk input).flags.validated =
          (validateRun flags rateLimitOk input).result.validationSucceeded ∧
        ((validateRun flags rateLimitOk input).result.validationSucceeded = false →
          (validateRun flags rateLimitOk input).flags.hasPreviouslyErrored = true)) := by
  intro flags rl input
  obtain ⟨hsome, hout⟩ := validateFull_shape flags rl input
  cases hv : validateFull flags rl input with
  | none => rw [hv] at hsome; simp at hsome
  | some out =>
    have hspec := hout out hv
    have hrun : validateRun flags rl input = out := by
      rw [validateRun, hv]
      rfl
    rw [hrun]
    constructor
    · intro hfb hrl
      rw [if_pos ⟨hfb, hrl⟩] at hspec
      exact ⟨hspec.1, hspec.2.1⟩
    · intro hcase
      have hcond : ¬(takesFastRejectBranch input = false ∧ rl = false) := by
        rcases hcase with h | h <;> simp [h]
      rw [if_neg hcond] at hspec
      exact hspec

/-- Witness for C4: a non-rate-limited call on a fresh validator emits
its result and mirrors the outcome into the flags. -/
theorem publish_and_emit_witness :
    (validateRun freshFlags true
      (some ['0', '8', '0', '3', '1', '2', '3', '4', '5', '6', '7'])).emitted =
      [(validateRun freshFlags true
        (some ['0', '8', '0', '3', '1', '2', '3', '4', '5', '6', '7'])).result] ∧
    (validateRun freshFlags true
      (some ['0', '8', '0', '3', '1', '2', '3', '4', '5', '6', '7'])).flags.validated =
      (validateRun freshFlags true
        (some ['0', '8', '0', '3', '1', '2', '3', '4', '5', '6', '7'])).result.validationSucceeded ∧
    ((validateRun freshFlags true
        (some ['0', '8', '0', '3', '1', '2', '3', '4', '5', '6', '7'])).result.validationSucceeded =
        false →
      (validateRun freshFlags true
        (some ['0', '8', '0', '3', '1', '2', '3', '4', '5', '6', '7'])).flags.hasPreviouslyErrored =
        true) :=
  (publish_and_emit_except_rate_limit freshFlags true
    (some ['0', '8', '0', '3', '1', '2', '3', '4', '5', '6', '7'])).2 (Or.inr rfl)

/-- C8: `validate` is total — it returns an outcome for every input
(`null`/`undefined` included) and never throws — while the three
construction-time invariants do throw: a result claiming success without
a mobile number, a range with `lower >= upper`, and an allocation
outside its code's 7-digit subscriber space. -/
theorem validate_never_throws :
    (∀ (flags : ValidationTriggeringFlags) (rateLimitOk : Bool)
       (input : Option (List Char)),
       (validateFull flags rateLimitOk input).isSome = true) ∧
    (∀ digits st alloc,
       mkMobileNumberValidationResult digits st true none alloc = none) ∧
    (∀ lo hi, hi ≤ lo → mkMobileNumberRange lo hi = none) ∧
    (∀ code t lo hi, 9999999 < hi → mkTelcoNumberAllocation code t lo hi = none) := by
  refine ⟨fun flags rl input => (validateFull_shape flags rl input).1, ?_, ?_, ?_⟩
  · intro digits st alloc
    rw [mkMobileNumberValidationResult]
    simp
  · intro lo hi h
    rw [mkMobileNumberRange, if_pos (by omega)]
  · intro code t lo hi h
    rw [mkTelcoNumberAllocation, getLocalNumberRange_eq]
    dsimp only
    by_cases hlo : (topRange code).lowerBound + lo ≥ (topRange code).lowerBound + hi
    · rw [mkMobileNumberRange, if_pos hlo]
    · rw [mkMobileNumberRange, if_neg hlo]
      dsimp only
      rw [if_neg]
      simp only [MobileNumberRange.isSubset, topRange]
      simp only [Bool.and_eq_true, decide_eq_true_eq, ge_iff_le, not_and]
      intro _
      omega

/-- Witness for C8: totality at a concrete call, and the three throwing
constructions at concrete violating inputs. -/
theorem validate_never_throws_witness :
    (validateFull freshFlags true
      (some ['0', '8', '0', '3', '1', '2', '3', '4', '5', '6', '7'])).isSome = true ∧
    mkMobileNumberValidationResult [] MobileValidationStatus.Success true none none = none ∧
    mkMobileNumberRange 5 5 = none ∧
    mkTelcoNumberAllocation 803 Telco.MTN 0 10000000 = none :=
  ⟨validate_never_throws.1 freshFlags true
      (some ['0', '8', '0', '3', '1', '2', '3', '4', '5', '6', '7']),
   validate_never_throws.2.1 [] MobileValidationStatus.Success none,
   validate_never_throws.2.2.1 5 5 (by decide),
   validate_never_throws.2.2.2 803 Telco.MTN 0 10000000 (by decide)⟩

/-- The conjunction of the guards a (non-null) input must pass inside
`validate` before the numbering-plan search runs: not fast-rejected,
numeric after sanitisation, not foreign, enough digits for the current
flags, exactly the expected length, and a valid network code. -/
def reachesPlanSearch (flags : ValidationTriggeringFlags) (input : List Char) : Bool :=
  !takesFastRejectBranch (some input) &&
  isNumeric (stripUnsafeInputs input) &&
  !isForeignNumber (stripUnsafeInputs input) &&
  (areThereEnoughDigitsToValidate flags (stripUnsafeInputs input)).1 &&
  (match expectedCharLengthOf (stripUnsafeInputs input) with
    | some n => (stripUnsafeInputs input).length == n
    | none => false) &&
  isNetworkCodeValid (mkMobileNumber (stripUnsafeInputs input)).networkCode

/-- C7: whenever the numbering-plan search resolves the validated number
to an allocation tagged `Returned`, `validate` returns
`ReturnedNetworkCode` — a status distinct from `WithdrawnNetworkCode` —
with `succeeded = false`, carrying both the parsed number and the
matched allocation. -/
theorem returned_allocation_maps_to_returned_status :
    ∀ (flags : ValidationTriggeringFlags) (input : List Char)
      (a : TelcoNumberAllocation),
      reachesPlanSearch flags input = true →
      searchE (digitsToNat (mkMobileNumber (stripUnsafeInputs input)).localNumber) =
        some (some a) →
      a.telco = Telco.Returned →
      (validateRun flags true (some input)).result.validationStatus =
        MobileValidationStatus.ReturnedNetworkCode ∧
      MobileValidationStatus.ReturnedNetworkCode ≠
        MobileValidationStatus.WithdrawnNetworkCode ∧
      (validateRun flags true (some input)).result.validationSucceeded = false ∧
      (validateRun flags true (some input)).result.mobileNumber =
        some (mkMobileNumber (stripUnsafeInputs input)) ∧
      (validateRun flags true (some input)).result.telcoNumberAllocation = some a := by
  intro flags input a hreach hsearch htelco
  simp only [reachesPlanSearch, Bool.and_eq_true, Bool.not_eq_true'] at hreach
  obtain ⟨⟨⟨⟨⟨hfb, hnum⟩, hfor⟩, hen⟩, hlen⟩, hcode⟩ := hreach
  have hemp : input.isEmpty = false :=
    ((takesFastRejectBranch_false_iff input).mp hfb).1
  simp only [validateRun, validateFull, Option.getD_some]
  rw [if_neg (by simp [hfb]), if_neg (by decide), if_neg (by simp [hemp]),
    if_neg (by simp [hnum]), if_neg (by simp [hfor]), if_neg (by simp [hen])]
  cases hE : expectedCharLengthOf (stripUnsafeInputs input) with
  | none =>
    rw [hE] at hlen
    cases hlen
  | some len =>
    rw [hE] at hlen
    have hlen2 : (stripUnsafeInputs input).length = len := by
      simpa using hlen
    dsimp only
    rw [if_neg (by simp [hlen2]), if_neg (by simp [hcode]), hsearch]
    dsimp only
    rw [if_neg (by simp [htelco]), if_neg (by simp [htelco]),
      if_neg (by simp [htelco]), if_neg (by simp [htelco]), if_pos htelco]
    rw [publishValidationResult_false]
    simp

/-- Witness for C7: `validate("07021234567")` on a fresh validator hits
the Returned sub-range of split code 702. -/
theorem returned_allocation_witness :
    (validateRun freshFlags true
      (some ['0', '7', '0', '2', '1', '2', '3', '4', '5', '6', '7'])).result.validationStatus =
      MobileValidationStatus.ReturnedNetworkCode ∧
    MobileValidationStatus.ReturnedNetworkCode ≠
      MobileValidationStatus.WithdrawnNetworkCode ∧
    (validateRun freshFlags true
      (some ['0', '7', '0', '2', '1', '2', '3', '4', '5', '6', '7'])).result.validationSucceeded =
      false ∧
    (validateRun freshFlags true
      (some ['0', '7', '0', '2', '1', '2', '3', '4', '5', '6', '7'])).result.mobileNumber =
      some (mkMobileNumber (stripUnsafeInputs
        ['0', '7', '0', '2', '1', '2', '3', '4', '5', '6', '7'])) ∧
    (validateRun freshFlags true
      (some ['0', '7', '0', '2', '1', '2', '3', '4', '5', '6', '7'])).result.telcoNumberAllocation =
      some ⟨702, Telco.Returned, ⟨7021000000, 7021999999⟩⟩ :=
  returned_allocation_maps_to_returned_status freshFlags
    ['0', '7', '0', '2', '1', '2', '3', '4', '5', '6', '7']
    ⟨702, Telco.Returned, ⟨7021000000, 7021999999⟩⟩
    (by decide) (by decide) rfl

/-- C9 counterexample: a 51-character all-digit input is rejected
outright by the pre-normalization fast-reject check
(`ContainsNonNumericChars`); processing does not continue on the
truncated input, which on its own would instead classify as
`NotNigerianNumber`. -/
theorem oversized_input_fast_rejected :
    fastReject (List.replicate 51 '1') = true ∧
    (validateRun freshFlags true
      (some (List.replicate 51 '1'))).result.validationStatus =
      MobileValidationStatus.ContainsNonNumericChars ∧
    (validateRun freshFlags true
      (some ((List.replicate 51 '1').take 50))).result.validationStatus =
      MobileValidationStatus.NotNigerianNumber := by decide

/-- C9 (amended): the sanitizer `stripUnsafeInputs` does truncate an
over-long input to its first 50 characters, but inside `validate` an
input longer than 50 characters never reaches normalization: the
pre-normalization fast-reject check rejects it with
`ContainsNonNumericChars`. -/
theorem sanitizer_truncates_but_validate_rejects :
    ∀ s : List Char, 50 < s.length →
      stripUnsafeInputs s = stripUnsafeInputs (s.take 50) ∧
      ∀ flags : ValidationTriggeringFlags,
        (validateRun flags true (some s)).result.validationStatus =
          MobileValidationStatus.ContainsNonNumericChars := by
  intro s hs
  have hne : s.isEmpty = false := by
    cases s with
    | nil => simp at hs
    | cons c rest => rfl
  have hne2 : (s.take 50).isEmpty = false := by
    cases s with
    | nil => simp at hs
    | cons c rest => rfl
  constructor
  · have h50 : s.length > MAX_INPUT_LENGTH := by
      simpa [MAX_INPUT_LENGTH] using hs
    have h50b : ¬((s.take 50).length > MAX_INPUT_LENGTH) := by
      simp [MAX_INPUT_LENGTH, List.length_take]
    conv_lhs => rw [stripUnsafeInputs, if_neg (by simp [hne]), if_pos h50]
    conv_rhs => rw [stripUnsafeInputs, if_neg (by simp [hne2]), if_neg h50b]
    rfl
  · intro flags
    have hfr : fastReject s = true := by
      rw [fastReject, if_neg (by omega), if_pos (by simpa [MAX_INPUT_LENGTH] using hs)]
    have hfb : takesFastRejectBranch (some s) = true := by
      simp [takesFastRejectBranch, hfr]
    simp only [validateRun, validateFull]
    rw [if_pos hfb, publishValidationResult_false]
    rfl

/-- Witness for C9: the truncation equation and the rejection at a
concrete 51-character input. -/
theorem sanitizer_truncates_witness :
    stripUnsafeInputs (List.replicate 51 '1') =
      stripUnsafeInputs ((List.replicate 51 '1').take 50) ∧
    (validateRun freshFlags true
      (some (List.replicate 51 '1'))).result.validationStatus =
      MobileValidationStatus.ContainsNonNumericChars :=
  ⟨(sanitizer_truncates_but_validate_rejects (List.replicate 51 '1') (by decide)).1,
   (sanitizer_truncates_but_validate_rejects (List.replicate 51 '1') (by decide)).2
     freshFlags⟩
